import Mathlib

/-!
Shallow embedding of the KeyMint Node.js SDK (`src/index.ts`, `src/types.ts`).

The SDK is a thin HTTP client: a constructor that validates the access token
and configures an axios instance, four generic request dispatchers
(`handleRequest` for POST, `handleGetRequest` for GET, `handleDeleteRequest`
for DELETE, `handlePutRequest` for PUT), thirteen public operations that route
through them, and one error-normalization function `handleError` that maps a
caught axios-style failure to the `KeyMintApiError` shape. The file also
contains a legacy `KeyMintSDK` class with its own (textually identical)
`handleError`.

The embedding models JavaScript runtime values with `JsValue`, the underlying
HTTP layer as an injectable function `Http` from a request description to
either a response or an axios-like failure, and each TypeScript function as a
Lean function over these types. Request parameter objects that the SDK passes
through verbatim are modelled directly as their wire payload (`JsValue`);
parameter records whose individual fields the SDK reads (`GetKeyParams` and
the customer-id records) are modelled as structures with the fields the
source declares.
-/

/-- A JavaScript runtime value, as far as the SDK's code distinguishes them:
`undefined`, `null`, booleans, numbers, strings, plain objects (a list of
key/value properties, keys unique) and arrays. -/
inductive JsValue where
  | undefined : JsValue
  | null : JsValue
  | bool (b : Bool) : JsValue
  | num (n : Int) : JsValue
  | str (s : String) : JsValue
  | obj (fields : List (String × JsValue)) : JsValue
  | arr (elems : List JsValue) : JsValue

/-- JavaScript truthiness: `undefined`, `null`, `false`, `0` and `""` are
falsy; every other value (including any object or array) is truthy. -/
def truthy : JsValue → Bool
  | .undefined => false
  | .null => false
  | .bool b => b
  | .num n => n != 0
  | .str s => s != ""
  | .obj _ => true
  | .arr _ => true

/-- The JavaScript `a || b` expression: `a` when `a` is truthy, else `b`. -/
def jsOr (a b : JsValue) : JsValue :=
  if truthy a then a else b

/-- JavaScript property access `v.key`: the property's value on an object
that has it, `undefined` otherwise. -/
def jsGet (v : JsValue) (key : String) : JsValue :=
  match v with
  | .obj fields => (fields.lookup key).getD .undefined
  | _ => .undefined

/-- The guard `typeof d === 'object' && d !== null && 'message' in d` used by
`handleError` on the response body: true exactly for a plain object carrying a
`message` property (arrays have `typeof 'object'` but no `message` property;
`null` is excluded explicitly; primitives fail the `typeof` test). -/
def isStructuredErrorBody : JsValue → Bool
  | .obj fields => fields.any fun p => p.1 == "message"
  | _ => false

/-- The pattern `typeof v === 'number' ? v : d`. -/
def asNumberOr (v : JsValue) (d : Int) : Int :=
  match v with
  | .num n => n
  | _ => d

/-- A JavaScript `new Error(msg)` value, as far as the SDK inspects it: it
carries a `name` and a `message` property and nothing else relevant (in
particular no `code` and no `status` property). -/
def jsNewError (msg : String) : JsValue :=
  .obj [("name", .str "Error"), ("message", .str msg)]

/-- An HTTP response as seen through axios: the deserialized body and the
HTTP status code. -/
structure HttpResponse where
  data : JsValue
  status : Int

/-- The axios-style failure value caught by the SDK's `catch` blocks and cast
to `AxiosError`: the `isAxiosError` flag, the optional `response` (absent for
network/timeout/request-setup failures) and the failure's own `message`. -/
structure AxiosLikeError where
  isAxiosError : Bool
  response : Option HttpResponse
  message : JsValue

/-- `KeyMintApiError` from `src/types.ts`: the normalized error shape with a
message, an API error code, and an optional HTTP status. The `message` field
is kept as a `JsValue` because `handleError` copies the body's `message`
property verbatim whenever it is truthy. -/
structure KeyMintApiError where
  message : JsValue
  code : Int
  status : Option Int

/-- HTTP method of a dispatched request. -/
inductive HttpMethod where
  | get : HttpMethod
  | post : HttpMethod
  | put : HttpMethod
  | delete : HttpMethod

/-- A request handed to the underlying HTTP client: method, endpoint path,
optional JSON body (POST/PUT) and optional query parameters (GET/DELETE). -/
structure HttpRequest where
  method : HttpMethod
  endpoint : String
  body : Option JsValue
  queryParams : Option JsValue

/-- The underlying HTTP layer (the configured axios instance): a function
from a request to either a response or an axios-like failure. -/
def Http : Type :=
  HttpRequest → Except AxiosLikeError HttpResponse

/-- `GetKeyParams` from `src/types.ts`. -/
structure GetKeyParams where
  productId : String
  licenseKey : String

/-- `GetCustomerWithKeysParams` from `src/types.ts`. -/
structure GetCustomerWithKeysParams where
  customerId : String

/-- `DeleteCustomerParams` from `src/types.ts`. -/
structure DeleteCustomerParams where
  customerId : String

/-- `ToggleCustomerStatusParams` from `src/types.ts`. -/
structure ToggleCustomerStatusParams where
  customerId : String

/-- `GetCustomerByIdParams` from `src/types.ts`. -/
structure GetCustomerByIdParams where
  customerId : String

/-- `defaultApiErrorMessage` from both `handleError` bodies. -/
def defaultApiErrorMessage : String :=
  "An API error occurred during the request."

/-- `defaultUnexpectedErrorMessage` from both `handleError` bodies. -/
def defaultUnexpectedErrorMessage : String :=
  "An unexpected error occurred."

/-- The fixed message of the constructor's configuration error. -/
def tokenRequiredMessage : String :=
  "Access token is required to initialize the SDK."

/-- The axios instance configuration built by the constructors: base URL plus
the default headers applied to every request. -/
structure AxiosConfig where
  baseURL : String
  headers : List (String × String)

namespace KeyMint

/-- `KeyMint.handleError` (src/index.ts lines 222-255): normalizes a caught
axios-style failure to a `KeyMintApiError`. -/
def handleError (axiosError : AxiosLikeError) : KeyMintApiError :=
  match axiosError.isAxiosError, axiosError.response with
  | true, some response =>
    let responseData := response.data
    if isStructuredErrorBody responseData then
      { message := jsOr (jsGet responseData "message") (.str defaultApiErrorMessage)
        code := asNumberOr (jsGet responseData "code") (-1)
        status := some response.status }
    else
      { message := .str defaultApiErrorMessage
        code := -1
        status := some response.status }
  | _, _ =>
    { message := jsOr axiosError.message (.str defaultUnexpectedErrorMessage)
      code := -1
      status := none }

/-- `KeyMint`'s constructor (src/index.ts lines 21-32): rejects a falsy
(absent or empty) access token by throwing a plain `Error`, otherwise builds
the axios instance configuration. The token is `Option String` so that an
absent (`undefined`) token is representable; both `none` and `some ""` are
falsy under `!accessToken`. -/
def construct (accessToken : Option String) (baseUrl : String) : Except JsValue AxiosConfig :=
  match accessToken with
  | none => .error (jsNewError tokenRequiredMessage)
  | some token =>
    if token = "" then .error (jsNewError tokenRequiredMessage)
    else
      .ok { baseURL := baseUrl
            headers := [("Authorization", "Bearer " ++ token),
                        ("Content-Type", "application/json")] }

/-- `KeyMint.handleRequest`: POST the params as body, return the response
data on success, throw the normalized error on failure. -/
def handleRequest (http : Http) (endpoint : String) (params : JsValue) :
    Except KeyMintApiError JsValue :=
  match http { method := .post, endpoint := endpoint, body := some params, queryParams := none } with
  | .ok response => .ok response.data
  | .error e => .error (handleError e)

/-- `KeyMint.handleGetRequest`: GET with optional query params. -/
def handleGetRequest (http : Http) (endpoint : String) (params : Option JsValue) :
    Except KeyMintApiError JsValue :=
  match http { method := .get, endpoint := endpoint, body := none, queryParams := params } with
  | .ok response => .ok response.data
  | .error e => .error (handleError e)

/-- `KeyMint.handleDeleteRequest`: DELETE with optional query params. -/
def handleDeleteRequest (http : Http) (endpoint : String) (params : Option JsValue) :
    Except KeyMintApiError JsValue :=
  match http { method := .delete, endpoint := endpoint, body := none, queryParams := params } with
  | .ok response => .ok response.data
  | .error e => .error (handleError e)

/-- `KeyMint.handlePutRequest`: PUT the params as body. -/
def handlePutRequest (http : Http) (endpoint : String) (params : JsValue) :
    Except KeyMintApiError JsValue :=
  match http { method := .put, endpoint := endpoint, body := some params, queryParams := none } with
  | .ok response => .ok response.data
  | .error e => .error (handleError e)

/-- `KeyMint.createKey`. -/
def createKey (http : Http) (params : JsValue) : Except KeyMintApiError JsValue :=
  handleRequest http "/key" params

/-- `KeyMint.activateKey`. -/
def activateKey (http : Http) (params : JsValue) : Except KeyMintApiError JsValue :=
  handleRequest http "/key/activate" params

/-- `KeyMint.deactivateKey`. -/
def deactivateKey (http : Http) (params : JsValue) : Except KeyMintApiError JsValue :=
  handleRequest http "/key/deactivate" params

/-- `KeyMint.getKey`: a GET on `/key` whose query parameters are built from
the params record's `productId` and `licenseKey`. -/
def getKey (http : Http) (params : GetKeyParams) : Except KeyMintApiError JsValue :=
  handleGetRequest http "/key"
    (some (.obj [("productId", .str params.productId),
                 ("licenseKey", .str params.licenseKey)]))

/-- `KeyMint.blockKey`. -/
def blockKey (http : Http) (params : JsValue) : Except KeyMintApiError JsValue :=
  handleRequest http "/key/block" params

/-- `KeyMint.unblockKey`. -/
def unblockKey (http : Http) (params : JsValue) : Except KeyMintApiError JsValue :=
  handleRequest http "/key/unblock" params

/-- `KeyMint.createCustomer`. -/
def createCustomer (http : Http) (params : JsValue) : Except KeyMintApiError JsValue :=
  handleRequest http "/customer" params

/-- `KeyMint.getAllCustomers`: GET with the optional params record passed as
query parameters. -/
def getAllCustomers (http : Http) (params : Option JsValue) : Except KeyMintApiError JsValue :=
  handleGetRequest http "/customer" params

/-- `KeyMint.getCustomerWithKeys`. -/
def getCustomerWithKeys (http : Http) (params : GetCustomerWithKeysParams) :
    Except KeyMintApiError JsValue :=
  handleGetRequest http "/customer/keys"
    (some (.obj [("customerId", .str params.customerId)]))

/-- `KeyMint.updateCustomer`. -/
def updateCustomer (http : Http) (params : JsValue) : Except KeyMintApiError JsValue :=
  handlePutRequest http "/customer/by-id" params

/-- `KeyMint.deleteCustomer`. -/
def deleteCustomer (http : Http) (params : DeleteCustomerParams) :
    Except KeyMintApiError JsValue :=
  handleDeleteRequest http "/customer/by-id"
    (some (.obj [("customerId", .str params.customerId)]))

/-- `KeyMint.toggleCustomerStatus`. -/
def toggleCustomerStatus (http : Http) (params : ToggleCustomerStatusParams) :
    Except KeyMintApiError JsValue :=
  handleRequest http "/customer/disable"
    (.obj [("customerId", .str params.customerId)])

/-- `KeyMint.getCustomerById`. -/
def getCustomerById (http : Http) (params : GetCustomerByIdParams) :
    Except KeyMintApiError JsValue :=
  handleGetRequest http "/customer/by-id"
    (some (.obj [("customerId", .str params.customerId)]))

end KeyMint

namespace KeyMintSDK

/-- `KeyMintSDK.handleError` (src/index.ts lines 364-394), the legacy class's
error normalization, transcribed separately from its own source text. -/
def handleError (axiosError : AxiosLikeError) : KeyMintApiError :=
  match axiosError.isAxiosError, axiosError.response with
  | true, some response =>
    let responseData := response.data
    if isStructuredErrorBody responseData then
      { message := jsOr (jsGet responseData "message") (.str defaultApiErrorMessage)
        code := asNumberOr (jsGet responseData "code") (-1)
        status := some response.status }
    else
      { message := .str defaultApiErrorMessage
        code := -1
        status := some response.status }
  | _, _ =>
    { message := jsOr axiosError.message (.str defaultUnexpectedErrorMessage)
      code := -1
      status := none }

end KeyMintSDK

/-- The thirteen public operations of the `KeyMint` class, each carrying its
parameters. Params the SDK forwards verbatim are their wire payload
(`JsValue`); the others are the source's parameter records. -/
inductive Operation where
  | createKey (params : JsValue) : Operation
  | activateKey (params : JsValue) : Operation
  | deactivateKey (params : JsValue) : Operation
  | getKey (params : GetKeyParams) : Operation
  | blockKey (params : JsValue) : Operation
  | unblockKey (params : JsValue) : Operation
  | createCustomer (params : JsValue) : Operation
  | getAllCustomers (params : Option JsValue) : Operation
  | getCustomerWithKeys (params : GetCustomerWithKeysParams) : Operation
  | updateCustomer (params : JsValue) : Operation
  | deleteCustomer (params : DeleteCustomerParams) : Operation
  | toggleCustomerStatus (params : ToggleCustomerStatusParams) : Operation
  | getCustomerById (params : GetCustomerByIdParams) : Operation

/-- Run one public operation of the `KeyMint` class against an HTTP layer. -/
def runOperation (http : Http) : Operation → Except KeyMintApiError JsValue
  | .createKey p => KeyMint.createKey http p
  | .activateKey p => KeyMint.activateKey http p
  | .deactivateKey p => KeyMint.deactivateKey http p
  | .getKey p => KeyMint.getKey http p
  | .blockKey p => KeyMint.blockKey http p
  | .unblockKey p => KeyMint.unblockKey http p
  | .createCustomer p => KeyMint.createCustomer http p
  | .getAllCustomers p => KeyMint.getAllCustomers http p
  | .getCustomerWithKeys p => KeyMint.getCustomerWithKeys http p
  | .updateCustomer p => KeyMint.updateCustomer http p
  | .deleteCustomer p => KeyMint.deleteCustomer http p
  | .toggleCustomerStatus p => KeyMint.toggleCustomerStatus http p
  | .getCustomerById p => KeyMint.getCustomerById http p

/-- The single HTTP request each operation issues (method, endpoint, body,
query parameters), read off the corresponding method body. -/
def operationRequest : Operation → HttpRequest
  | .createKey p =>
    { method := .post, endpoint := "/key", body := some p, queryParams := none }
  | .activateKey p =>
    { method := .post, endpoint := "/key/activate", body := some p, queryParams := none }
  | .deactivateKey p =>
    { method := .post, endpoint := "/key/deactivate", body := some p, queryParams := none }
  | .getKey p =>
    { method := .get, endpoint := "/key", body := none
      queryParams := some (.obj [("productId", .str p.productId),
                                 ("licenseKey", .str p.licenseKey)]) }
  | .blockKey p =>
    { method := .post, endpoint := "/key/block", body := some p, queryParams := none }
  | .unblockKey p =>
    { method := .post, endpoint := "/key/unblock", body := some p, queryParams := none }
  | .createCustomer p =>
    { method := .post, endpoint := "/customer", body := some p, queryParams := none }
  | .getAllCustomers p =>
    { method := .get, endpoint := "/customer", body := none, queryParams := p }
  | .getCustomerWithKeys p =>
    { method := .get, endpoint := "/customer/keys", body := none
      queryParams := some (.obj [("customerId", .str p.customerId)]) }
  | .updateCustomer p =>
    { method := .put, endpoint := "/customer/by-id", body := some p, queryParams := none }
  | .deleteCustomer p =>
    { method := .delete, endpoint := "/customer/by-id", body := none
      queryParams := some (.obj [("customerId", .str p.customerId)]) }
  | .toggleCustomerStatus p =>
    { method := .post, endpoint := "/customer/disable"
      body := some (.obj [("customerId", .str p.customerId)]), queryParams := none }
  | .getCustomerById p =>
    { method := .get, endpoint := "/customer/by-id", body := none
      queryParams := some (.obj [("customerId", .str p.customerId)]) }

/-- The uniform dispatch every handler performs on its one request: return
the response data on success, the normalized error on failure. -/
def dispatchRequest (http : Http) (req : HttpRequest) : Except KeyMintApiError JsValue :=
  match http req with
  | .ok response => .ok response.data
  | .error e => .error (KeyMint.handleError e)

/-- Every operation is exactly the uniform dispatch of its single request. -/
theorem runOperation_eq_dispatch (http : Http) (op : Operation) :
    runOperation http op = dispatchRequest http (operationRequest op) := by
  cases op <;> rfl

/-- If a key has a binding in an association list, scanning for the key with
`any` succeeds. -/
theorem any_key_of_lookup_eq_some {fields : List (String × JsValue)} {key : String}
    {v : JsValue} (h : fields.lookup key = some v) :
    (fields.any fun p => p.1 == key) = true := by
  induction fields with
  | nil => simp [List.lookup] at h
  | cons hd tl ih =>
    obtain ⟨k, b⟩ := hd
    by_cases hk : key = k
    · subst hk
      simp
    · have hk' : (key == k) = false := by simpa using hk
      rw [List.lookup, hk'] at h
      simpa [hk] using Or.inr (ih h)

/-- `handleError` on an axios failure whose response body is an object with a
`message` binding: the structured branch fires. -/
theorem handleError_structured {e : AxiosLikeError} {resp : HttpResponse}
    {fields : List (String × JsValue)} {msg : String}
    (hax : e.isAxiosError = true)
    (hresp : e.response = some resp)
    (hdata : resp.data = JsValue.obj fields)
    (hmsg : fields.lookup "message" = some (JsValue.str msg)) :
    KeyMint.handleError e =
      { message := JsValue.str (if msg = "" then defaultApiErrorMessage else msg)
        code := match fields.lookup "code" with
                | some (JsValue.num n) => n
                | _ => -1
        status := some resp.status } := by
  obtain ⟨isAx, response, emsg⟩ := e
  obtain ⟨data, stat⟩ := resp
  simp only at hax hresp hdata
  subst hax hresp hdata
  unfold KeyMint.handleError
  simp only [isStructuredErrorBody, any_key_of_lookup_eq_some hmsg, if_true,
    jsGet, hmsg, Option.getD_some, jsOr, truthy, KeyMintApiError.mk.injEq]
  refine ⟨?_, ?_, trivial⟩
  · by_cases hm : msg = "" <;> simp [hm]
  · cases hc : fields.lookup "code" with
    | none => simp [asNumberOr]
    | some w => cases w <;> simp [asNumberOr]

/-- `handleError` on an axios failure whose response body is not an object
with a `message` binding: the unexpected-format branch fires. -/
theorem handleError_unstructured {e : AxiosLikeError} {resp : HttpResponse}
    (hax : e.isAxiosError = true)
    (hresp : e.response = some resp)
    (hshape : isStructuredErrorBody resp.data = false) :
    KeyMint.handleError e =
      { message := JsValue.str defaultApiErrorMessage
        code := -1
        status := some resp.status } := by
  obtain ⟨isAx, response, emsg⟩ := e
  obtain ⟨data, stat⟩ := resp
  simp only at hax hresp hshape
  subst hax hresp
  unfold KeyMint.handleError
  simp [hshape]

/-- `handleError` on a failure with no response: the transport branch fires. -/
theorem handleError_no_response {e : AxiosLikeError}
    (hresp : e.response = none) :
    KeyMint.handleError e =
      { message := if truthy e.message then e.message
                   else JsValue.str defaultUnexpectedErrorMessage
        code := -1
        status := none } := by
  obtain ⟨isAx, response, emsg⟩ := e
  simp only at hresp
  subst hresp
  cases isAx <;> rfl

/-- An HTTP layer that rejects every request with the given failure. -/
def constHttpError (e : AxiosLikeError) : Http :=
  fun _ => Except.error e

/-- An HTTP layer that answers every request with the given response. -/
def constHttpOk (r : HttpResponse) : Http :=
  fun _ => Except.ok r

/-- C1: for every operation, when the underlying HTTP call fails with a
failure that carries an HTTP response whose body is an object containing a
`message` field, the operation fails with a `KeyMintApiError` whose message
is the body's message (or the fixed fallback `defaultApiErrorMessage` when
the body's message is empty), whose code is the body's code when numeric and
`-1` otherwise, and whose status is the response's HTTP status code. -/
theorem keymint_c1_structured_api_error (op : Operation) (http : Http)
    (e : AxiosLikeError) (resp : HttpResponse)
    (fields : List (String × JsValue)) (msg : String)
    (hfail : http (operationRequest op) = Except.error e)
    (hax : e.isAxiosError = true)
    (hresp : e.response = some resp)
    (hdata : resp.data = JsValue.obj fields)
    (hmsg : fields.lookup "message" = some (JsValue.str msg)) :
    runOperation http op = Except.error
      { message := JsValue.str (if msg = "" then defaultApiErrorMessage else msg)
        code := match fields.lookup "code" with
                | some (JsValue.num n) => n
                | _ => -1
        status := some resp.status } := by
  rw [runOperation_eq_dispatch]
  unfold dispatchRequest
  rw [hfail]
  exact congrArg Except.error (handleError_structured hax hresp hdata hmsg)

/-- Witness for C1: a concrete `activateKey` failure with a structured body
`{message: "Invalid license key", code: 2}` and status 400. -/
theorem keymint_c1_witness :
    runOperation
      (constHttpError
        { isAxiosError := true
          response := some
            { data := JsValue.obj [("message", JsValue.str "Invalid license key"),
                                   ("code", JsValue.num 2)]
              status := 400 }
          message := JsValue.undefined })
      (Operation.activateKey (JsValue.obj [])) =
    Except.error { message := JsValue.str "Invalid license key"
                   code := 2
                   status := some 400 } := by
  exact keymint_c1_structured_api_error (Operation.activateKey (JsValue.obj []))
    (constHttpError
      { isAxiosError := true
        response := some
          { data := JsValue.obj [("message", JsValue.str "Invalid license key"),
                                 ("code", JsValue.num 2)]
            status := 400 }
        message := JsValue.undefined })
    _ _ _ _ rfl rfl rfl rfl rfl

/-- C2: for every operation, when the underlying HTTP call fails with a
failure carrying no HTTP response, the operation fails with a
`KeyMintApiError` whose message is the failure's own message (or the fixed
fallback `defaultUnexpectedErrorMessage` when the failure's message is
absent/empty), whose code is `-1`, and whose status is absent. -/
theorem keymint_c2_no_response (op : Operation) (http : Http)
    (e : AxiosLikeError)
    (hfail : http (operationRequest op) = Except.error e)
    (hresp : e.response = none) :
    runOperation http op = Except.error
      { message := if truthy e.message then e.message
                   else JsValue.str defaultUnexpectedErrorMessage
        code := -1
        status := none } := by
  rw [runOperation_eq_dispatch]
  unfold dispatchRequest
  rw [hfail]
  exact congrArg Except.error (handleError_no_response hresp)

/-- Witness for C2: a concrete `createKey` failure with no response, whose
own message is "Network Error". -/
theorem keymint_c2_witness :
    runOperation
      (constHttpError
        { isAxiosError := true, response := none, message := JsValue.str "Network Error" })
      (Operation.createKey (JsValue.obj [])) =
    Except.error { message := JsValue.str "Network Error", code := -1, status := none } := by
  exact keymint_c2_no_response (Operation.createKey (JsValue.obj []))
    (constHttpError
      { isAxiosError := true, response := none, message := JsValue.str "Network Error" })
    _ rfl rfl

/-- C3: for every operation, when the underlying HTTP call fails with a
failure that carries an HTTP response whose body is not an object containing
a `message` field, the operation fails with a `KeyMintApiError` whose message
is the fixed fallback `defaultApiErrorMessage`, whose code is `-1`, and whose
status is the response's HTTP status code. -/
theorem keymint_c3_unstructured_body (op : Operation) (http : Http)
    (e : AxiosLikeError) (resp : HttpResponse)
    (hfail : http (operationRequest op) = Except.error e)
    (hax : e.isAxiosError = true)
    (hresp : e.response = some resp)
    (hshape : isStructuredErrorBody resp.data = false) :
    runOperation http op = Except.error
      { message := JsValue.str defaultApiErrorMessage
        code := -1
        status := some resp.status } := by
  rw [runOperation_eq_dispatch]
  unfold dispatchRequest
  rw [hfail]
  exact congrArg Except.error (handleError_unstructured hax hresp hshape)

/-- Witness for C3: a concrete `getKey` failure whose response body is the
bare string "Internal Server Error" with status 500. -/
theorem keymint_c3_witness :
    runOperation
      (constHttpError
        { isAxiosError := true
          response := some { data := JsValue.str "Internal Server Error", status := 500 }
          message := JsValue.undefined })
      (Operation.getKey { productId := "P1", licenseKey := "lk_ABC" }) =
    Except.error { message := JsValue.str defaultApiErrorMessage
                   code := -1
                   status := some 500 } := by
  exact keymint_c3_unstructured_body
    (Operation.getKey { productId := "P1", licenseKey := "lk_ABC" })
    (constHttpError
      { isAxiosError := true
        response := some { data := JsValue.str "Internal Server Error", status := 500 }
        message := JsValue.undefined })
    _ _ rfl rfl rfl rfl

/-- C4: for every operation, when the underlying HTTP layer answers with a
success response, the operation resolves with exactly that response's body,
untransformed. -/
theorem keymint_c4_success_passthrough (op : Operation) (http : Http)
    (r : HttpResponse)
    (hok : http (operationRequest op) = Except.ok r) :
    runOperation http op = Except.ok r.data := by
  rw [runOperation_eq_dispatch]
  unfold dispatchRequest
  rw [hok]

/-- Witness for C4: `createKey({productId:"P1"})` against a stub returning
`{code:0, key:"lk_ABC"}` yields exactly `{code:0, key:"lk_ABC"}`. -/
theorem keymint_c4_witness :
    runOperation
      (constHttpOk
        { data := JsValue.obj [("code", JsValue.num 0), ("key", JsValue.str "lk_ABC")]
          status := 200 })
      (Operation.createKey (JsValue.obj [("productId", JsValue.str "P1")])) =
    Except.ok (JsValue.obj [("code", JsValue.num 0), ("key", JsValue.str "lk_ABC")]) := by
  exact keymint_c4_success_passthrough
    (Operation.createKey (JsValue.obj [("productId", JsValue.str "P1")]))
    (constHttpOk
      { data := JsValue.obj [("code", JsValue.num 0), ("key", JsValue.str "lk_ABC")]
        status := 200 })
    _ rfl

/-- C5: every operation produces exactly one of a success value or a
normalized error — whichever way its single HTTP call went — and every
failure is converted through `KeyMint.handleError` before reaching the
caller, so no raw transport failure propagates unmodified. -/
theorem keymint_c5_exactly_one_outcome (op : Operation) (http : Http) :
    (∃ r, http (operationRequest op) = Except.ok r ∧
      runOperation http op = Except.ok r.data) ∨
    (∃ e, http (operationRequest op) = Except.error e ∧
      runOperation http op = Except.error (KeyMint.handleError e)) := by
  rw [runOperation_eq_dispatch]
  unfold dispatchRequest
  cases h : http (operationRequest op) with
  | ok r => exact Or.inl ⟨r, rfl, rfl⟩
  | error e => exact Or.inr ⟨e, rfl, rfl⟩

/-- Counterexample for C6 as stated: a failure object that does carry an HTTP
response (with status 500) but is not flagged `isAxiosError`; `handleError`
takes the no-response branch and the normalized error carries no status at
all, rather than the response's status. -/
theorem keymint_c6_counterexample :
    (KeyMint.handleError
      { isAxiosError := false
        response := some { data := JsValue.null, status := 500 }
        message := JsValue.str "boom" }).status = none := rfl

/-- C6 (amended): the normalized error's status is present exactly when the
failure is flagged as an axios failure AND carries an HTTP response; whenever
both hold, the status equals the response's HTTP status. -/
theorem keymint_c6_status_presence (e : AxiosLikeError) :
    ((KeyMint.handleError e).status.isSome ↔
      e.isAxiosError = true ∧ e.response.isSome) ∧
    (∀ resp : HttpResponse, e.isAxiosError = true → e.response = some resp →
      (KeyMint.handleError e).status = some resp.status) := by
  obtain ⟨isAx, response, emsg⟩ := e
  cases isAx with
  | false => cases response <;> simp [KeyMint.handleError]
  | true =>
    cases response with
    | none => simp [KeyMint.handleError]
    | some r =>
      cases hs : isStructuredErrorBody r.data <;>
        simp [KeyMint.handleError, hs]

/-- Witness for the amended C6: a concrete axios failure with a response of
status 404 yields a normalized error whose status is 404. -/
theorem keymint_c6_witness :
    (KeyMint.handleError
      { isAxiosError := true
        response := some { data := JsValue.null, status := 404 }
        message := JsValue.undefined }).status = some 404 := by
  exact (keymint_c6_status_presence
    { isAxiosError := true
      response := some { data := JsValue.null, status := 404 }
      message := JsValue.undefined }).2
    { data := JsValue.null, status := 404 } rfl rfl

/-- C7: constructing the gateway with an absent or empty access token fails
immediately with the configuration error — no client configuration is
produced — while any non-empty token succeeds with a configuration carrying
the bearer Authorization header and the JSON content type. -/
theorem keymint_c7_constructor (token : String) (baseUrl : String) :
    KeyMint.construct none baseUrl = Except.error (jsNewError tokenRequiredMessage) ∧
    KeyMint.construct (some "") baseUrl = Except.error (jsNewError tokenRequiredMessage) ∧
    (token ≠ "" →
      KeyMint.construct (some token) baseUrl =
        Except.ok { baseURL := baseUrl
                    headers := [("Authorization", "Bearer " ++ token),
                                ("Content-Type", "application/json")] }) := by
  refine ⟨rfl, rfl, fun ht => ?_⟩
  unfold KeyMint.construct
  simp [ht]

/-- Witness for C7: a concrete non-empty token configures the client with the
bearer header. -/
theorem keymint_c7_witness :
    KeyMint.construct (some "tok") "https://api.keymint.dev" =
      Except.ok { baseURL := "https://api.keymint.dev"
                  headers := [("Authorization", "Bearer tok"),
                              ("Content-Type", "application/json")] } := by
  exact (keymint_c7_constructor "tok" "https://api.keymint.dev").2.2 (by decide)

/-- C8: `getKey` issues its call as a GET on `/key` carrying `productId` and
`licenseKey` as query parameters and no request body; the operation is
exactly the uniform dispatch of that request. -/
theorem keymint_c8_getKey_query (p : GetKeyParams) (http : Http) :
    runOperation http (Operation.getKey p) =
      dispatchRequest http
        { method := HttpMethod.get
          endpoint := "/key"
          body := none
          queryParams := some (JsValue.obj
            [("productId", JsValue.str p.productId),
             ("licenseKey", JsValue.str p.licenseKey)]) } := rfl

/-- C9: the error-normalization function of the current `KeyMint` class and
that of the legacy `KeyMintSDK` class are extensionally equal: each failure
input normalizes to the identical `KeyMintApiError`. -/
theorem keymint_c9_handleError_equiv (e : AxiosLikeError) :
    KeyMint.handleError e = KeyMintSDK.handleError e := rfl

/-- C10: the constructor's configuration failure for an empty or absent token
is a plain `Error` with the fixed message; the thrown value has no `code` and
no `status` property, so it does not have the `KeyMintApiError` shape. -/
theorem keymint_c10_plain_config_error (baseUrl : String) :
    ∃ errVal : JsValue,
      KeyMint.construct (some "") baseUrl = Except.error errVal ∧
      KeyMint.construct none baseUrl = Except.error errVal ∧
      jsGet errVal "message" =
        JsValue.str "Access token is required to initialize the SDK." ∧
      jsGet errVal "code" = JsValue.undefined ∧
      jsGet errVal "status" = JsValue.undefined := by
  exact ⟨jsNewError tokenRequiredMessage, rfl, rfl, rfl, rfl, rfl⟩
